import Mathlib

/-!
# Verification of the bevy-snake simulation core

Shallow embedding of `src/main.rs` (a grid-based snake game).

Modelling conventions, justified against the source:
* Every entity position in the game is a `Transform` whose `x`/`y`
  translations are integer multiples of `CELL_SIZE = 24.0`: the head and the
  initial segment are spawned at multiples of `CELL_SIZE` in `setup`, the head
  moves by exactly `± CELL_SIZE` per tick in `snake_movement`, grown segments
  are spawned at `Vec3::ZERO`, and food is spawned at
  `(integer in [-12, 12)) * CELL_SIZE`.  All such values (bounded by the
  arena, well below 2^24) are exactly representable in `f32`, and the
  comparisons the source performs on them (equality, `<`, `>`, `abs`) are
  exact.  We therefore model a position as a pair of integers (grid cell
  coordinates) and scale by `CELL_SIZE` where the source compares
  world coordinates.  The `z` coordinate is `0.0` for every snake/food entity
  and never influences a comparison, so it is omitted.
* Bevy's ECS scheduling is embedded as one `update_frame` function: the
  `Update` systems run chained in the order given in `main`
  (`snake_movement_input`, `snake_movement`, `snake_eating`, `snake_growth`,
  `game_over`, `update_scoreboard`, `handle_game_over`), the `run_if
  (in_state ...)` conditions all read the same current state for the whole
  frame (Bevy applies `NextState` only at the state-transition point before
  the next frame), and an event sent by a system is read by the chained
  readers later in the same frame.  The random cell produced by `thread_rng`
  in `spawn_food` is passed in as the parameter `newFood`, constrained by
  the predicate `spawn_food_possible` that captures the `gen_range` bounds.
-/

/-- Grid cell in arena coordinates: the world translation is
`(24 * x, 24 * y)`. -/
structure Cell where
  x : Int
  y : Int
deriving DecidableEq, Repr

/-- `const ARENA_WIDTH: u32 = 24`. -/
def ARENA_WIDTH : Int := 24

/-- `const ARENA_HEIGHT: u32 = 24`. -/
def ARENA_HEIGHT : Int := 24

/-- `const CELL_SIZE: f32 = 24.0` (integer-valued, see module docstring). -/
def CELL_SIZE : Int := 24

/-- The `GameState` states enum of the source: it has exactly the two
variants `Playing` (the default) and `GameOver`. -/
inductive GameState where
  | Playing
  | GameOver
deriving DecidableEq, Repr, Fintype

/-- The `Direction` enum. -/
inductive Direction where
  | Left
  | Up
  | Right
  | Down
deriving DecidableEq, Repr, Fintype

namespace Direction

/-- `Direction::opposite`. -/
def opposite : Direction → Direction
  | Left => Right
  | Right => Left
  | Up => Down
  | Down => Up

end Direction

/-- The keyboard inputs the source reads, one flag per handled key.
`left/down/up/right` model `keyboard_input.pressed` on the arrow key or its
WASD synonym (the source only ever uses the disjunction of the two);
`space` models `keyboard_input.just_pressed(KeyCode::Space)`.  No other key
is read anywhere in the source. -/
structure Input where
  left : Bool
  down : Bool
  up : Bool
  right : Bool
  space : Bool
deriving DecidableEq, Repr

/-- The requested direction computed by the `if`/`else if` chain of
`snake_movement_input`: priority Left, Down, Up, Right, default the current
direction. -/
def requested_dir (inp : Input) (current : Direction) : Direction :=
  if inp.left then Direction.Left
  else if inp.down then Direction.Down
  else if inp.up then Direction.Up
  else if inp.right then Direction.Right
  else current

/-- The final guard of `snake_movement_input`:
`if dir != head.direction.opposite() { head.direction = dir }`. -/
def apply_direction (current requested : Direction) : Direction :=
  if requested ≠ current.opposite then requested else current

/-- The whole `snake_movement_input` system, as a function from the pressed
keys and the current head direction to the new head direction. -/
def snake_movement_input (inp : Input) (current : Direction) : Direction :=
  apply_direction current (requested_dir inp current)

/-- The head translation update of `snake_movement`, in cell coordinates:
Left `x -= CELL_SIZE`, Right `x += CELL_SIZE`, Up `y += CELL_SIZE`,
Down `y -= CELL_SIZE`. -/
def move_cell (dir : Direction) (c : Cell) : Cell :=
  match dir with
  | Direction.Left => ⟨c.x - 1, c.y⟩
  | Direction.Right => ⟨c.x + 1, c.y⟩
  | Direction.Up => ⟨c.x, c.y + 1⟩
  | Direction.Down => ⟨c.x, c.y - 1⟩

/-- `let half_arena_width = (ARENA_WIDTH as f32 * CELL_SIZE) / 2.0`
(= 288.0, exact). -/
def half_arena_width : Int := ARENA_WIDTH * CELL_SIZE / 2

/-- `half_arena_height`, identical by symmetry (= 288). -/
def half_arena_height : Int := ARENA_HEIGHT * CELL_SIZE / 2

/-- The wall-collision test of `snake_movement`, on the (new) head cell `c`
whose world translation is `(CELL_SIZE * c.x, CELL_SIZE * c.y)`:
`x < -half_arena_width || x > half_arena_width || y < ... || y > ...`.
All comparisons are strict in the source. -/
def wall_collision (c : Cell) : Bool :=
  decide (CELL_SIZE * c.x < -half_arena_width) ||
  decide (CELL_SIZE * c.x > half_arena_width) ||
  decide (CELL_SIZE * c.y < -half_arena_height) ||
  decide (CELL_SIZE * c.y > half_arena_height)

/-- Result of one run of the `snake_movement` system body: the new positions
of the `SnakeSegments` entities (head first, same order as the resource) and
whether a `GameOverEvent` was sent. -/
structure MoveResult where
  positions : List Cell
  gameOverSent : Bool
deriving DecidableEq, Repr

/-- The body-segment update loop of `snake_movement`.  The source re-reads
the head position AFTER mutating it (`let head_pos = positions.get
(head_entity)...` comes after the `match` that moved the head), so the
segment at index 0 is assigned the NEW head position `newHead`, and the
segment at index `i ≥ 1` is assigned `segment_positions[i-1]`, the pre-move
position of its predecessor. -/
def shift_body (newHead : Cell) (body : List Cell) : List Cell :=
  match body with
  | [] => []
  | _ :: _ => newHead :: body.dropLast

/-- The `snake_movement` system body (after the timer gate), operating on the
list of positions of the `SnakeSegments` entities, head first.
`segment_positions` (= `body`) is collected with `.skip(1)` before the head
moves; the self-collision check `segment_positions.contains(&head_pos.
translation)` and the wall check both use the moved head position. -/
def snake_movement (dir : Direction) (ps : List Cell) : MoveResult :=
  match ps with
  | [] => ⟨[], false⟩
  | h :: body =>
      let newHead := move_cell dir h
      ⟨newHead :: shift_body newHead body,
       decide (newHead ∈ body) || wall_collision newHead⟩

/-- The timer gate of `snake_movement`: when the `MovementTimer` has not
finished this frame the system returns before doing anything. -/
def movement_phase (fired : Bool) (dir : Direction) (ps : List Cell) :
    MoveResult :=
  if fired then snake_movement dir ps else ⟨ps, false⟩

example : snake_movement Direction.Up [⟨0, 0⟩, ⟨0, -1⟩] =
    ⟨[⟨0, 1⟩, ⟨0, 1⟩], false⟩ := by decide

example : snake_movement Direction.Right [⟨11, 0⟩] = ⟨[⟨12, 0⟩], false⟩ := by
  decide

example : snake_movement Direction.Right [⟨12, 0⟩] = ⟨[⟨13, 0⟩], true⟩ := by
  decide

/-- The eating test of `snake_eating` for one head/food pair:
`(head.x - food.x).abs() < CELL_SIZE / 2.0 && (head.y - food.y).abs() <
CELL_SIZE / 2.0`, on world translations `CELL_SIZE * cell`. -/
def food_hit (head food : Cell) : Bool :=
  decide (|CELL_SIZE * (head.x - food.x)| < CELL_SIZE / 2) &&
  decide (|CELL_SIZE * (head.y - food.y)| < CELL_SIZE / 2)

/-- The `snake_eating` loop over the (single) head: the head entity is the
first entry of the `SnakeSegments` list; with no head entity nothing
happens. -/
def eats (positions : List Cell) (food : Cell) : Bool :=
  match positions.head? with
  | some hd => food_hit hd food
  | none => false

/-- The `snake_growth` system when a `GrowthEvent` is pending: one new
segment entity, spawned at `Transform::from_translation(Vec3::ZERO)`
(cell `(0, 0)`), is pushed onto the end of the `SnakeSegments` list. -/
def snake_growth (segs : List Cell) : List Cell :=
  segs ++ [⟨0, 0⟩]

/-- The cells the `gen_range` calls of `spawn_food` can produce:
`x ∈ [-(ARENA_WIDTH/2), ARENA_WIDTH/2)` and likewise for `y` (both
`gen_range(-12..12)`, half-open). -/
def spawn_food_possible (c : Cell) : Bool :=
  decide (-(ARENA_WIDTH / 2) ≤ c.x) && decide (c.x < ARENA_WIDTH / 2) &&
  decide (-(ARENA_HEIGHT / 2) ≤ c.y) && decide (c.y < ARENA_HEIGHT / 2)

/-- Grid bounds as the spec states them: both coordinates in the half-open
range `[-grid/2, grid/2)` for the 24×24 grid.  (Stated from the spec's
words, to be compared with `spawn_food_possible`, which is stated from the
source's `gen_range` calls.) -/
def grid_in_bounds (c : Cell) : Prop :=
  -12 ≤ c.x ∧ c.x < 12 ∧ -12 ≤ c.y ∧ c.y < 12

instance (c : Cell) : Decidable (grid_in_bounds c) := by
  unfold grid_in_bounds; infer_instance

/-- The snake spawned by `setup`: head entity at world `(0, 0, 0)` (cell
`(0, 0)`), then one segment entity at world `(0, -CELL_SIZE, 0)` (cell
`(0, -1)`). -/
def initial_segments : List Cell := [⟨0, 0⟩, ⟨0, -1⟩]

/-- The head direction `setup` spawns: `Direction::Up`. -/
def initial_direction : Direction := Direction.Up

/-- The full simulation state read and written by the `Update` systems:
current phase (the `State<GameState>` resource), head direction, the cells
of the `SnakeSegments` entities (head first), the active food cell, and the
score. -/
structure GameWorld where
  phase : GameState
  dir : Direction
  segs : List Cell
  food : Cell
  score : Nat
deriving DecidableEq, Repr

/-- One frame while the state is `Playing`: `snake_movement_input`, then
`snake_movement` (gated by the timer `fired`), then `snake_eating` (which on
a hit despawns the food, sends `GrowthEvent`, increments the score and
spawns `newFood`), then `snake_growth` (which reads the `GrowthEvent` sent
this frame), then `game_over` (which reads the `GameOverEvent` sent this
frame and sets the next state). -/
def playing_update (inp : Input) (fired : Bool) (newFood : Cell)
    (w : GameWorld) : GameWorld :=
  let dir1 := snake_movement_input inp w.dir
  let mv := movement_phase fired dir1 w.segs
  let ate := eats mv.positions w.food
  { phase := if mv.gameOverSent then GameState.GameOver else GameState.Playing
    dir := dir1
    segs := if ate then snake_growth mv.positions else mv.positions
    food := if ate then newFood else w.food
    score := if ate then w.score + 1 else w.score }

/-- One frame while the state is `GameOver`: only `snake_movement_input`
(which has no `run_if`) and `handle_game_over` run.  On Space the latter
despawns everything, resets the score, clears the segments, re-runs `setup`
(fresh head facing `Up` at the centre, one segment below, a fresh food) and
sets the next state to `Playing`. -/
def game_over_update (inp : Input) (newFood : Cell) (w : GameWorld) :
    GameWorld :=
  if inp.space then
    { phase := GameState.Playing
      dir := initial_direction
      segs := initial_segments
      food := newFood
      score := 0 }
  else
    { w with dir := snake_movement_input inp w.dir }

/-- One whole frame of the chained `Update` schedule of `main`, followed by
the application of the pending `NextState` (which Bevy performs before the
next frame's `Update`).  `fired` is whether the `MovementTimer` finished
this frame and `newFood` is the cell the `thread_rng` calls of `spawn_food`
would produce if `spawn_food` runs this frame. -/
def update_frame (inp : Input) (fired : Bool) (newFood : Cell)
    (w : GameWorld) : GameWorld :=
  if w.phase = GameState.Playing then playing_update inp fired newFood w
  else game_over_update inp newFood w

example :
    update_frame ⟨false, false, false, false, false⟩ true ⟨5, 5⟩
      ⟨GameState.Playing, Direction.Up, initial_segments, ⟨7, 7⟩, 0⟩ =
    ⟨GameState.Playing, Direction.Up, [⟨0, 1⟩, ⟨0, 1⟩], ⟨7, 7⟩, 0⟩ := by
  decide

/-! ## Shared lemmas -/

theorem shift_body_length (nh : Cell) (body : List Cell) :
    (shift_body nh body).length = body.length := by
  cases body with
  | nil => rfl
  | cons b rest => simp [shift_body]

theorem snake_movement_length (dir : Direction) (ps : List Cell) :
    (snake_movement dir ps).positions.length = ps.length := by
  cases ps with
  | nil => rfl
  | cons h body => simp [snake_movement, shift_body_length]

theorem movement_phase_length (fired : Bool) (dir : Direction)
    (ps : List Cell) :
    (movement_phase fired dir ps).positions.length = ps.length := by
  cases fired with
  | false => rfl
  | true => simp [movement_phase, snake_movement_length]

theorem snake_growth_length (segs : List Cell) :
    (snake_growth segs).length = segs.length + 1 := by
  simp [snake_growth]

/-- The source's strict world-coordinate wall test, in cell coordinates:
out of bounds exactly when a coordinate leaves the CLOSED range
`[-12, 12]`. -/
theorem wall_collision_iff (c : Cell) :
    wall_collision c = true ↔
      (c.x < -12 ∨ 12 < c.x ∨ c.y < -12 ∨ 12 < c.y) := by
  simp only [wall_collision, half_arena_width, half_arena_height,
    ARENA_WIDTH, ARENA_HEIGHT, CELL_SIZE, Bool.or_eq_true, gt_iff_lt,
    decide_eq_true_eq]
  omega

/-- The eating test (`abs` of the world-coordinate difference below
`CELL_SIZE / 2` on both axes) holds exactly on cell equality. -/
theorem food_hit_iff (h f : Cell) : food_hit h f = true ↔ h = f := by
  rcases h with ⟨hx, hy⟩
  rcases f with ⟨fx, fy⟩
  simp only [food_hit, CELL_SIZE, Bool.and_eq_true, decide_eq_true_eq,
    abs_lt, Cell.mk.injEq]
  omega

theorem food_hit_eq_false (h f : Cell) (hne : h ≠ f) :
    food_hit h f = false := by
  cases hb : food_hit h f with
  | false => rfl
  | true => exact absurd ((food_hit_iff h f).mp hb) hne

/-! ## Claim C1: wall collision range -/

/-- Claim C1 counterexample.  Moving right from `x = 11` puts the head at
`x = 12 = ARENA_WIDTH / 2`, which lies outside the half-open range
`[-12, 12)`, yet `snake_movement` sends no `GameOverEvent` there: the
source's strict comparisons keep `x = 12` alive. -/
theorem C1_counterexample :
    (snake_movement Direction.Right [⟨11, 0⟩]).positions = [⟨12, 0⟩] ∧
    ¬ ((12 : Int) < ARENA_WIDTH / 2) ∧
    (snake_movement Direction.Right [⟨11, 0⟩]).gameOverSent = false := by
  decide

/-- Claim C1, amended: on a movement tick with no self-collision, a
`GameOverEvent` is sent exactly when the new head's `x` or `y` leaves the
CLOSED range `[-ARENA_WIDTH/2, ARENA_WIDTH/2]` = `[-12, 12]`; in particular
a head exactly at coordinate `12` does not trigger game over, and neither
does one at `-12`. -/
theorem C1_wall_game_over_closed_range (dir : Direction) (h : Cell)
    (body : List Cell) (hself : move_cell dir h ∉ body) :
    (snake_movement dir (h :: body)).gameOverSent = true ↔
      ((move_cell dir h).x < -12 ∨ 12 < (move_cell dir h).x ∨
       (move_cell dir h).y < -12 ∨ 12 < (move_cell dir h).y) := by
  simp [snake_movement, hself, wall_collision_iff]

/-- Claim C1 witness: moving right from `x = 12` (head at `x = 13`) does
trigger game over. -/
theorem C1_wall_game_over_closed_range_witness :
    (snake_movement Direction.Right [⟨12, 0⟩]).gameOverSent = true :=
  (C1_wall_game_over_closed_range Direction.Right ⟨12, 0⟩ []
    (by decide)).mpr (by decide)

/-! ## Claim C2: self collision and the vacated tail -/

/-- Claim C2 counterexample.  A length-4 snake whose head moves onto the
cell its own tail vacates this very tick: the head moves from `(0,0)` to
`(0,1)`, which is the pre-move tail cell; the tail entity itself moves away
to `(1,1)`; the source still sends a `GameOverEvent`, because the collision
test uses the full pre-move body, the vacated tail cell included. -/
theorem C2_counterexample :
    move_cell Direction.Up ⟨0, 0⟩ = ⟨0, 1⟩ ∧
    ([⟨1, 0⟩, ⟨1, 1⟩, ⟨0, 1⟩] : List Cell).getLast? = some ⟨0, 1⟩ ∧
    (snake_movement Direction.Up
      [⟨0, 0⟩, ⟨1, 0⟩, ⟨1, 1⟩, ⟨0, 1⟩]).positions.getLast? = some ⟨1, 1⟩ ∧
    (snake_movement Direction.Up
      [⟨0, 0⟩, ⟨1, 0⟩, ⟨1, 1⟩, ⟨0, 1⟩]).gameOverSent = true := by
  decide

/-- Claim C2, amended: on a movement tick whose new head stays inside the
walls, a `GameOverEvent` is sent if and only if the new head cell equals
ANY pre-move body cell (every segment except the head), the tail cell being
vacated this tick included. -/
theorem C2_self_collision_includes_vacated_tail (dir : Direction) (h : Cell)
    (body : List Cell) (hwall : wall_collision (move_cell dir h) = false) :
    (snake_movement dir (h :: body)).gameOverSent = true ↔
      move_cell dir h ∈ body := by
  simp [snake_movement, hwall]

/-- Claim C2 witness: the loop state above, through the amended theorem. -/
theorem C2_self_collision_includes_vacated_tail_witness :
    (snake_movement Direction.Up
      [⟨0, 0⟩, ⟨1, 0⟩, ⟨1, 1⟩, ⟨0, 1⟩]).gameOverSent = true :=
  (C2_self_collision_includes_vacated_tail Direction.Up ⟨0, 0⟩
    [⟨1, 0⟩, ⟨1, 1⟩, ⟨0, 1⟩] (by decide)).mpr (by decide)

/-! ## Claim C3: game over does not suppress growth -/

/-- Claim C3 counterexample.  A tick in which the head both self-collides
(at `(0,1)`, a pre-move body cell) and lands on the food (also at `(0,1)`):
the `GameOverEvent` fires, and nevertheless the score is incremented to `1`
and a segment is added (5 entries, the new one at the origin), because
`snake_eating` and `snake_growth` still run in the frame that sends the
event — the state only switches to `GameOver` afterwards. -/
theorem C3_counterexample :
    update_frame ⟨false, false, false, false, false⟩ true ⟨5, 5⟩
        ⟨GameState.Playing, Direction.Up,
          [⟨0, 0⟩, ⟨1, 0⟩, ⟨1, 1⟩, ⟨0, 1⟩], ⟨0, 1⟩, 0⟩ =
      ⟨GameState.GameOver, Direction.Up,
        [⟨0, 1⟩, ⟨0, 1⟩, ⟨1, 0⟩, ⟨1, 1⟩, ⟨0, 0⟩], ⟨5, 5⟩, 1⟩ := by
  decide

/-- Claim C3, amended: on a Playing frame in which the movement system sends
a `GameOverEvent` AND the post-move head is on the food, growth is still
applied: the score is incremented, the segment list grows by one, and only
the phase switches to `GameOver` (taking effect after the frame). -/
theorem C3_growth_despite_game_over (inp : Input) (fired : Bool) (nf : Cell)
    (w : GameWorld) (hp : w.phase = GameState.Playing)
    (hgo : (movement_phase fired (snake_movement_input inp w.dir)
      w.segs).gameOverSent = true)
    (hate : eats (movement_phase fired (snake_movement_input inp w.dir)
      w.segs).positions w.food = true) :
    (update_frame inp fired nf w).score = w.score + 1 ∧
    (update_frame inp fired nf w).segs.length = w.segs.length + 1 ∧
    (update_frame inp fired nf w).phase = GameState.GameOver := by
  simp [update_frame, hp, playing_update, hgo, hate, snake_growth_length,
    movement_phase_length]

/-- Claim C3 witness: the self-collision-onto-food tick above, through the
amended theorem. -/
theorem C3_growth_despite_game_over_witness :
    (update_frame ⟨false, false, false, false, false⟩ true ⟨5, 5⟩
        ⟨GameState.Playing, Direction.Up,
          [⟨0, 0⟩, ⟨1, 0⟩, ⟨1, 1⟩, ⟨0, 1⟩], ⟨0, 1⟩, 0⟩).score = 1 ∧
    (update_frame ⟨false, false, false, false, false⟩ true ⟨5, 5⟩
        ⟨GameState.Playing, Direction.Up,
          [⟨0, 0⟩, ⟨1, 0⟩, ⟨1, 1⟩, ⟨0, 1⟩], ⟨0, 1⟩, 0⟩).segs.length = 5 ∧
    (update_frame ⟨false, false, false, false, false⟩ true ⟨5, 5⟩
        ⟨GameState.Playing, Direction.Up,
          [⟨0, 0⟩, ⟨1, 0⟩, ⟨1, 1⟩, ⟨0, 1⟩], ⟨0, 1⟩, 0⟩).phase =
      GameState.GameOver :=
  C3_growth_despite_game_over ⟨false, false, false, false, false⟩ true
    ⟨5, 5⟩ ⟨GameState.Playing, Direction.Up,
      [⟨0, 0⟩, ⟨1, 0⟩, ⟨1, 1⟩, ⟨0, 1⟩], ⟨0, 1⟩, 0⟩ rfl (by decide)
    (by decide)

/-! ## Claim C4: there is no Paused phase -/

/-- Claim C4 counterexample: the `GameState` enum of the source has no value
besides `Playing` and `GameOver` — there is no `Paused` state to transition
into, from `Playing` or from anywhere. -/
theorem C4_counterexample :
    ¬ ∃ p : GameState, p ≠ GameState.Playing ∧ p ≠ GameState.GameOver := by
  decide

/-- Claim C4, amended: the phase machine has no Paused state.  After any
frame (any keys pressed — no key is read as a pause key anywhere in the
source), the phase is `Playing` or `GameOver`. -/
theorem C4_no_paused_phase (inp : Input) (fired : Bool) (nf : Cell)
    (w : GameWorld) :
    (update_frame inp fired nf w).phase = GameState.Playing ∨
    (update_frame inp fired nf w).phase = GameState.GameOver := by
  cases hp : (update_frame inp fired nf w).phase with
  | Playing => exact Or.inl rfl
  | GameOver => exact Or.inr rfl

/-! ## Claim C5: direction requests -/

/-- Claim C5: `apply_direction` (the guard closing `snake_movement_input`)
ignores a request for the opposite of the current direction and honours
every other request. -/
theorem C5_apply_direction (cur req : Direction) :
    (req = cur.opposite → apply_direction cur req = cur) ∧
    (req ≠ cur.opposite → apply_direction cur req = req) := by
  constructor
  · intro hop
    simp [apply_direction, hop]
  · intro hop
    simp [apply_direction, hop]

/-- Claim C5 witness: facing `Up`, a `Down` request is ignored and a `Left`
request is honoured. -/
theorem C5_apply_direction_witness :
    apply_direction Direction.Up Direction.Down = Direction.Up ∧
    apply_direction Direction.Up Direction.Left = Direction.Left :=
  ⟨(C5_apply_direction Direction.Up Direction.Down).1 rfl,
   (C5_apply_direction Direction.Up Direction.Left).2 (by decide)⟩

/-! ## Claim C6: tick translation of the body -/

/-- Claim C6, evaluated at the spec's own start-scenario (head at the
centre, one segment below, moving Up, no collision, no food): the code
moves the head to `(0, 1)` but assigns the first body segment the NEW head
cell `(0, 1)` as well — not the former head cell `(0, 0)` — because
`snake_movement` re-reads the head translation after mutating it.  The
segment list hence does not translate by one cell; head and first segment
permanently coincide. -/
theorem C6_first_segment_gets_new_head_cell :
    initial_segments = [⟨0, 0⟩, ⟨0, -1⟩] ∧
    (snake_movement Direction.Up initial_segments).positions =
      [⟨0, 1⟩, ⟨0, 1⟩] ∧
    (⟨0, 1⟩ : Cell) ≠ ⟨0, 0⟩ ∧
    (snake_movement Direction.Up initial_segments).gameOverSent = false := by
  decide

/-! ## Claim C7: effects of eating -/

/-- Claim C7: on a Playing frame, when the post-move head cell equals the
food cell, exactly the eating effects happen: the score goes up by one, the
food is replaced by the freshly spawned cell, and the segment list grows by
one; when the head is not on the food, score, food and length are all
unchanged. -/
theorem C7_eating_effects (inp : Input) (fired : Bool) (nf : Cell)
    (w : GameWorld) (hp : w.phase = GameState.Playing) (hd : Cell)
    (hhd : (movement_phase fired (snake_movement_input inp w.dir)
      w.segs).positions.head? = some hd) :
    (hd = w.food →
       (update_frame inp fired nf w).score = w.score + 1 ∧
       (update_frame inp fired nf w).food = nf ∧
       (update_frame inp fired nf w).segs.length = w.segs.length + 1) ∧
    (hd ≠ w.food →
       (update_frame inp fired nf w).score = w.score ∧
       (update_frame inp fired nf w).food = w.food ∧
       (update_frame inp fired nf w).segs.length = w.segs.length) := by
  constructor
  · intro heq
    have hate : eats (movement_phase fired (snake_movement_input inp w.dir)
        w.segs).positions w.food = true := by
      unfold eats
      rw [hhd]
      exact (food_hit_iff hd w.food).mpr heq
    simp [update_frame, hp, playing_update, hate, snake_growth_length,
      movement_phase_length]
  · intro hne
    have hate : eats (movement_phase fired (snake_movement_input inp w.dir)
        w.segs).positions w.food = false := by
      unfold eats
      rw [hhd]
      exact food_hit_eq_false hd w.food hne
    simp [update_frame, hp, playing_update, hate, movement_phase_length]

/-- Claim C7 witness: the initial snake moving Up onto food at `(0, 1)`
scores `1`, gets the fresh food cell `(5, 5)`, and grows to 3 entries. -/
theorem C7_eating_effects_witness :
    (update_frame ⟨false, false, false, false, false⟩ true ⟨5, 5⟩
        ⟨GameState.Playing, Direction.Up, initial_segments,
          ⟨0, 1⟩, 0⟩).score = 1 ∧
    (update_frame ⟨false, false, false, false, false⟩ true ⟨5, 5⟩
        ⟨GameState.Playing, Direction.Up, initial_segments,
          ⟨0, 1⟩, 0⟩).food = ⟨5, 5⟩ ∧
    (update_frame ⟨false, false, false, false, false⟩ true ⟨5, 5⟩
        ⟨GameState.Playing, Direction.Up, initial_segments,
          ⟨0, 1⟩, 0⟩).segs.length = 3 :=
  (C7_eating_effects ⟨false, false, false, false, false⟩ true ⟨5, 5⟩
    ⟨GameState.Playing, Direction.Up, initial_segments, ⟨0, 1⟩, 0⟩ rfl
    ⟨0, 1⟩ (by decide)).1 rfl

/-! ## Claim C8: restart -/

/-- Claim C8: in `GameOver`, pressing Space resets everything — phase back
to `Playing`, direction `Up`, the two initial segments (head at the centre,
one segment below it), the fresh food, score `0`; without Space the phase
stays `GameOver` and segments, food and score are untouched, so restart is
the only way out of `GameOver`. -/
theorem C8_restart (inp : Input) (fired : Bool) (nf : Cell) (w : GameWorld)
    (hp : w.phase = GameState.GameOver) :
    (inp.space = true →
       update_frame inp fired nf w =
         { phase := GameState.Playing, dir := initial_direction,
           segs := initial_segments, food := nf, score := 0 } ∧
       initial_segments = [⟨0, 0⟩, ⟨0, -1⟩] ∧
       initial_direction = Direction.Up) ∧
    (inp.space = false →
       (update_frame inp fired nf w).phase = GameState.GameOver ∧
       (update_frame inp fired nf w).segs = w.segs ∧
       (update_frame inp fired nf w).food = w.food ∧
       (update_frame inp fired nf w).score = w.score) := by
  constructor
  · intro hsp
    refine ⟨?_, rfl, rfl⟩
    simp [update_frame, hp, game_over_update, hsp]
  · intro hsp
    simp [update_frame, hp, game_over_update, hsp]

/-- Claim C8 witness: a concrete `GameOver` world restarted with Space. -/
theorem C8_restart_witness :
    update_frame ⟨false, false, false, false, true⟩ false ⟨2, 2⟩
        ⟨GameState.GameOver, Direction.Left, [⟨3, 3⟩], ⟨1, 1⟩, 7⟩ =
      ⟨GameState.Playing, Direction.Up, [⟨0, 0⟩, ⟨0, -1⟩], ⟨2, 2⟩, 0⟩ :=
  ((C8_restart ⟨false, false, false, false, true⟩ false ⟨2, 2⟩
    ⟨GameState.GameOver, Direction.Left, [⟨3, 3⟩], ⟨1, 1⟩, 7⟩ rfl).1
    rfl).1

/-! ## Claim C9: food spawn cells -/

/-- Claim C9: every cell the `gen_range` calls of `spawn_food` can produce
lies within the half-open grid bounds `[-12, 12)` on both axes, and the
spawner excludes nothing: the origin is a spawnable cell even though the
initial snake occupies it. -/
theorem C9_food_spawn_bounds (c : Cell)
    (hc : spawn_food_possible c = true) :
    grid_in_bounds c ∧
    (spawn_food_possible ⟨0, 0⟩ = true ∧ ⟨0, 0⟩ ∈ initial_segments) := by
  refine ⟨?_, by decide, by decide⟩
  unfold grid_in_bounds
  simp only [spawn_food_possible, ARENA_WIDTH, ARENA_HEIGHT,
    Bool.and_eq_true, decide_eq_true_eq] at hc
  omega

/-- Claim C9 witness: the cell `(3, 4)` is spawnable and in bounds, and the
occupied origin is spawnable. -/
theorem C9_food_spawn_bounds_witness :
    grid_in_bounds ⟨3, 4⟩ ∧
    (spawn_food_possible ⟨0, 0⟩ = true ∧ ⟨0, 0⟩ ∈ initial_segments) :=
  ⟨(C9_food_spawn_bounds ⟨3, 4⟩ (by decide)).1,
   (C9_food_spawn_bounds ⟨3, 4⟩ (by decide)).2⟩

/-! ## Claim C10: the grown segment sits at the origin -/

/-- Claim C10: growth appends its new segment at the fixed origin cell
`(0, 0)` whatever the snake looks like (in particular, not next to the
tail); the segment stays there while the movement timer has not fired; the
next movement tick assigns it the pre-move cell of its predecessor (the
last old segment); and in that movement tick the origin counts as a body
cell for the self-collision test: a head moving onto `(0, 0)` triggers game
over. -/
theorem C10_growth_segment_at_origin (dir : Direction) (h b : Cell)
    (body : List Cell) :
    (snake_growth (h :: b :: body)).getLast? = some ⟨0, 0⟩ ∧
    (movement_phase false dir (snake_growth (h :: b :: body))).positions =
      snake_growth (h :: b :: body) ∧
    (snake_movement dir (snake_growth (h :: b :: body))).positions.getLast?
      = (b :: body).getLast? ∧
    (move_cell dir h = ⟨0, 0⟩ →
      (snake_movement dir (snake_growth (h :: b :: body))).gameOverSent =
        true) := by
  refine ⟨?_, rfl, ?_, ?_⟩
  · simp [snake_growth]
    rw [← List.cons_append, List.getLast?_concat]
  · simp [snake_growth, snake_movement, shift_body, List.getLast?_cons_cons]
    rw [← List.cons_append, List.dropLast_concat, List.getLast?_cons_cons]
  · intro hmv
    simp [snake_growth, snake_movement, hmv]

/-- Claim C10 witness: the snake `[(0,1), (0,2)]` after growth carries its
new segment at the origin; moving Down the head lands on `(0, 0)`, the new
segment inherits `(0, 2)` from its predecessor, and game over fires. -/
theorem C10_growth_segment_at_origin_witness :
    (snake_growth [⟨0, 1⟩, ⟨0, 2⟩]).getLast? = some ⟨0, 0⟩ ∧
    (snake_movement Direction.Down
      (snake_growth [⟨0, 1⟩, ⟨0, 2⟩])).positions.getLast? = some ⟨0, 2⟩ ∧
    (snake_movement Direction.Down
      (snake_growth [⟨0, 1⟩, ⟨0, 2⟩])).gameOverSent = true := by
  have hc := C10_growth_segment_at_origin Direction.Down ⟨0, 1⟩ ⟨0, 2⟩ []
  exact ⟨hc.1, hc.2.2.1, hc.2.2.2 (by decide)⟩
